import Mathlib

/-!
Shallow embedding of the issue-editing page of the inspection-report
application (`src/pages/field/report/[id].tsx`) and of the map-photo API
route (`src/pages/api/map-photo.ts`).

Modelling conventions, used consistently below:
* JavaScript numbers that only ever hold decimal literals and results of
  `parseInt`/`parseFloat` are modelled as rationals (`ℚ`); all the
  comparisons the claims mention are far from any floating-point rounding
  boundary, so the rational model agrees with the IEEE-754 behaviour of
  the source on every comparison that appears in a theorem.
* A JavaScript string-valued field whose falsy states are `""` and
  `undefined` is modelled as `String`, with `""` standing for both; the
  two are indistinguishable by every operation the embedded code performs
  on such fields (truthiness tests and comparison against a non-empty
  object URL).  Where the source distinguishes `undefined` via optional
  chaining (`items[i]?.photo`), the model uses `List.get?` instead.
* Asynchronous effects (image decode, JPEG encode, HTTP fetch, storage
  upload) are abstracted as explicit parameters/oracles; the control flow
  around them is transcribed from the source.

The file is organised as: all definitions first, then all theorems.
-/

namespace Inspection

/-! ## Issue draft data model (`IssueFormData` in `[id].tsx`) -/

inductive IssueCase where
  | case1
  | case2
deriving DecidableEq, Repr

structure Case1Data where
  sub_item_id : String
  quantity : ℚ
  unit_price : ℚ
  photos : List String
deriving DecidableEq, Repr

structure Case2Item where
  sub_item_id : String
  quantity : ℚ
  unit_price : ℚ
  photo : String
deriving DecidableEq, Repr

structure Case2Data where
  items : List Case2Item
deriving DecidableEq, Repr

structure IssueFormData where
  caseType : IssueCase
  main_item_id : String
  notes : String
  case1Data : Case1Data
  case2Data : Case2Data
deriving DecidableEq, Repr

/-- One entry of `case2Data.items` passes the per-item filter used by
`validateIssue` (`item.sub_item_id && item.photo && item.quantity > 0 &&
item.unit_price > 0`). -/
def case2ItemValid (it : Case2Item) : Bool :=
  it.sub_item_id ≠ "" && it.photo ≠ "" && 0 < it.quantity && 0 < it.unit_price

/-- Transcription of `validateIssue` from `[id].tsx` (lines 409–443), transcribed guard by
guard.  The alert side effects are dropped; only the returned boolean is
modelled. -/
def validateIssue (ci : IssueFormData) : Bool :=
  if ci.main_item_id = "" then false
  else
    match ci.caseType with
    | .case1 =>
      if ci.case1Data.sub_item_id = "" then false
      else if (ci.case1Data.photos.filter (fun p => p ≠ "")).length ≠ 3 then false
      else if ci.case1Data.quantity ≤ 0 then false
      else if ci.case1Data.unit_price ≤ 0 then false
      else true
    | .case2 =>
      if (ci.case2Data.items.filter case2ItemValid).length ≠ 3 then false
      else true

/-- The empty `case2` item row used by the form's initial/reset state. -/
def emptyCase2Item : Case2Item :=
  { sub_item_id := "", quantity := 1, unit_price := 0, photo := "" }

/-- The initial draft installed by `useState`/`resetIssueForm`. -/
def emptyIssueForm : IssueFormData :=
  { caseType := .case1
    main_item_id := ""
    notes := ""
    case1Data := { sub_item_id := "", quantity := 1, unit_price := 0, photos := [] }
    case2Data := { items := [emptyCase2Item, emptyCase2Item, emptyCase2Item] } }

/-- A concrete `case2` draft with three fully valid item entries but an
empty `main_item_id`: it refutes C2 as stated, because `validateIssue`
first rejects any draft whose main item is unset (line 410 of the page),
while the claimed right-hand side — exactly 3 valid item entries — holds. -/
def c2Counterexample : IssueFormData :=
  { caseType := .case2
    main_item_id := ""
    notes := ""
    case1Data := { sub_item_id := "", quantity := 1, unit_price := 0, photos := [] }
    case2Data :=
      { items :=
          [ { sub_item_id := "s1", quantity := 1, unit_price := 10, photo := "p1" }
          , { sub_item_id := "s2", quantity := 2, unit_price := 20, photo := "p2" }
          , { sub_item_id := "s3", quantity := 3, unit_price := 30, photo := "p3" } ] } }

/-! ## `compressImage` (`[id].tsx`, lines 128–191)

The browser pieces are abstracted: `decode` is the `Image` element load
(`none` = `onerror`, which rejects the promise), `ctxOk` is whether
`canvas.getContext("2d")` returns non-null (a null context throws), and
`encode q` is `canvas.toBlob(…, "image/jpeg", q)` returning the encoded
blob's size (`none` = a null blob, which rejects the promise). -/

structure JSFile where
  size : ℕ
  name : String
  mime : String
deriving DecidableEq, Repr

structure ImageDims where
  width : ℚ
  height : ℚ
deriving DecidableEq, Repr

/-- The aspect-preserving downscale in `compressImage`:
`if (width > height && width > maxDimension) … else if (height >= width &&
height > maxDimension) …`. -/
def scaleDims (maxDimension : ℚ) (d : ImageDims) : ImageDims :=
  if d.height < d.width ∧ maxDimension < d.width then
    { width := maxDimension, height := d.height * maxDimension / d.width }
  else if d.width ≤ d.height ∧ maxDimension < d.height then
    { width := d.width * maxDimension / d.height, height := maxDimension }
  else d

/-- Result of the `while` loop in `compressImage`.  `encoded` records the
qualities at which `toBlob` was called *inside* the loop (the initial
encode at 0.72 happens before the loop).  `outOfFuel` is a model artifact
of the fuel-based embedding of the `while` loop; the theorems below show
it is never produced from the loop's actual entry state once the fuel is
at least 2. -/
inductive LoopResult where
  | done (quality : ℚ) (blobSize : ℕ) (encoded : List ℚ)
  | encodeFailed
  | outOfFuel
deriving DecidableEq, Repr

/-- The quality-reduction `while` loop of `compressImage`:
`while (blob.size > targetBytes && quality > 0.58) { quality -= 0.08;
blob = await toBlob(quality); }`. -/
def compressLoopAux (encode : ℚ → Option ℕ) (targetBytes : ℕ) :
    ℕ → ℚ → ℕ → List ℚ → LoopResult
  | fuel, quality, blobSize, encoded =>
    if targetBytes < blobSize ∧ (58 : ℚ)/100 < quality then
      match fuel with
      | 0 => .outOfFuel
      | Nat.succ fuel' =>
        let q2 := quality - 8/100
        match encode q2 with
        | none => .encodeFailed
        | some b2 => compressLoopAux encode targetBytes fuel' q2 b2 (encoded ++ [q2])
    else .done quality blobSize encoded

/-- Fuel supplied to the loop embedding; any value ≥ 2 produces the same
result from the loop's entry state (quality 0.72), as proved below. -/
def compressFuel : ℕ := 16

inductive CompressResult where
  | ok (f : JSFile)
  | failed
deriving DecidableEq, Repr

/-- Transcription of `compressImage` from `[id].tsx` (lines 128–191).  `hasWindow` models
the `typeof window === "undefined" || typeof window.Image === "undefined"`
SSR guard; `now` is `Date.now()` at the final `File` construction.  Any
rejection of the wrapped promise (decode error, null context, null blob)
is `.failed`. -/
def compressImage
    (hasWindow : Bool) (decode : Option ImageDims) (ctxOk : Bool)
    (encode : ℚ → Option ℕ) (now : ℕ) (file : JSFile)
    (maxDimension : ℚ := 1400) (targetSizeKb : ℕ := 900) : CompressResult :=
  if ¬ hasWindow then .ok file
  else
    let targetBytes := targetSizeKb * 1024
    if file.size ≤ targetBytes then .ok file
    else
      match decode with
      | none => .failed
      | some dims =>
        let _scaled := scaleDims maxDimension dims
        if ¬ ctxOk then .failed
        else
          match encode (72/100) with
          | none => .failed
          | some b0 =>
            match compressLoopAux encode targetBytes compressFuel (72/100) b0 [] with
            | .done _ blobSize _ =>
              .ok { size := blobSize, name := toString now ++ ".jpg", mime := "image/jpeg" }
            | _ => .failed

/-- An encoder whose output never fits the target: every `toBlob` returns a
1,000,000-byte blob against the default 921,600-byte target.  Used to
refute the "an encode at quality 0.56 never runs" part of C4. -/
def c4Encode : ℚ → Option ℕ := fun _ => some 1000000

/-! ## Photo-slot upload state updates
(`handleCase1PhotoUpload`, lines 339–372, and `handleCase2PhotoUpload`,
lines 374–407)

Each handler creates a temporary preview URL, writes it into the slot,
uploads, and then runs one of two functional `setCurrentIssue` updates:
on success it installs the remote URL, on failure it clears the slot —
both only after re-checking that the slot still holds the very preview
reference this handler installed.  The updates below transcribe those
updater functions. -/

/-- JS array read `arr[i]`; `""` stands for both an absent slot
(`undefined`) and the empty string — the two are identically falsy and
identically distinct from any non-empty preview URL. -/
def jsGetStr (l : List String) (i : ℕ) : String := l.getD i ""

/-- JS array write `arr[i] = v`: assigning past the end pads the array
with holes (modelled as `""`). -/
def jsSetStr (l : List String) (i : ℕ) (v : String) : List String :=
  (l ++ List.replicate (i + 1 - l.length) "").set i v

/-- Write `url` into case1 photo slot `index` of the draft (the common
body of the three case1 `setCurrentIssue` updates). -/
def case1PhotoSet (index : ℕ) (url : String) (prev : IssueFormData) : IssueFormData :=
  { prev with case1Data :=
      { prev.case1Data with photos := jsSetStr prev.case1Data.photos index url } }

/-- The `setCurrentIssue` update run when a case1 upload resolves
(lines 353–358): install the remote URL only if slot `index` still holds
the temporary preview reference. -/
def case1ResolveUpdate (index : ℕ) (previewUrl photoUrl : String)
    (prev : IssueFormData) : IssueFormData :=
  if jsGetStr prev.case1Data.photos index ≠ previewUrl then prev
  else case1PhotoSet index photoUrl prev

/-- The `setCurrentIssue` update run when a case1 upload fails
(lines 362–367): clear slot `index` back to empty under the same
staleness guard. -/
def case1FailUpdate (index : ℕ) (previewUrl : String)
    (prev : IssueFormData) : IssueFormData :=
  if jsGetStr prev.case1Data.photos index ≠ previewUrl then prev
  else case1PhotoSet index "" prev

/-- The `setCurrentIssue` update run when a case2 upload resolves
(lines 388–393).  The guard `items[itemIndex]?.photo !== previewUrl` is
modelled with `List.get?`: an absent entry compares unequal to the
(non-empty) preview URL and leaves the state unchanged. -/
def case2ResolveUpdate (itemIndex : ℕ) (previewUrl photoUrl : String)
    (prev : IssueFormData) : IssueFormData :=
  match prev.case2Data.items[itemIndex]? with
  | none => prev
  | some it =>
    if it.photo ≠ previewUrl then prev
    else
      { prev with case2Data :=
          ⟨prev.case2Data.items.set itemIndex { it with photo := photoUrl }⟩ }

/-- The `setCurrentIssue` update run when a case2 upload fails
(lines 397–402): clear the item's photo under the same staleness guard. -/
def case2FailUpdate (itemIndex : ℕ) (previewUrl : String)
    (prev : IssueFormData) : IssueFormData :=
  match prev.case2Data.items[itemIndex]? with
  | none => prev
  | some it =>
    if it.photo ≠ previewUrl then prev
    else
      { prev with case2Data :=
          ⟨prev.case2Data.items.set itemIndex { it with photo := "" }⟩ }

/-! ## Pending-uploads counter
(`pendingUploads` state, line 87; updates at lines 349/384 and 369/404) -/

/-- The two `setPendingUploads` functional updates appearing in the upload
handlers: `count => count + 1` before the upload starts, and
`count => Math.max(0, count - 1)` in the `finally` block. -/
inductive CounterEvent where
  | inc
  | dec
deriving DecidableEq, Repr

/-- Apply one `setPendingUploads` update to the counter. -/
def counterStep (c : ℤ) : CounterEvent → ℤ
  | .inc => c + 1
  | .dec => max 0 (c - 1)

/-- Run any sequence of counter updates from an initial value. -/
def runCounter (c₀ : ℤ) (es : List CounterEvent) : ℤ := es.foldl counterStep c₀

/-- Lifecycle phase of one photo-slot upload handler invocation. -/
inductive UploadPhase where
  | idle
  | inFlight
  | settled
deriving DecidableEq, Repr

/-- The page state relevant to the pending-uploads invariant: the counter
plus the phase of each upload handler invocation. -/
structure UploadState where
  counter : ℤ
  handlers : List UploadPhase
deriving DecidableEq, Repr

/-- Interleaved small-step semantics of the photo-upload handlers
(cooperative event-loop execution: any in-flight upload may settle at any
time, and uploads for different slots overlap arbitrarily).  `start` is
the `setPendingUploads(count => count + 1)` issued before `uploadPhoto`
begins; `settle` is the `finally` block's
`setPendingUploads(count => Math.max(0, count - 1))`, which runs exactly
once per upload whether it succeeded or failed. -/
inductive UploadStep : UploadState → UploadState → Prop where
  | start (s : UploadState) (i : ℕ) (h : s.handlers.get? i = some .idle) :
      UploadStep s ⟨counterStep s.counter .inc, s.handlers.set i .inFlight⟩
  | settle (s : UploadState) (i : ℕ) (h : s.handlers.get? i = some .inFlight) :
      UploadStep s ⟨counterStep s.counter .dec, s.handlers.set i .settled⟩

/-- Initial page state: counter at `c₀` (the page mounts with 0), with `n`
uploads not yet started. -/
def uploadInit (c₀ : ℤ) (n : ℕ) : UploadState := ⟨c₀, List.replicate n .idle⟩

/-- Reachability under the upload-handler steps. -/
def UploadReachable (init s : UploadState) : Prop :=
  Relation.ReflTransGen UploadStep init s

/-! ## Persisted rows and the edit-save sequence
(`handleSaveIssue`, lines 523–642; `getSubItemPrice`, line 707) -/

structure SubItemRec where
  id : String
  unit_price : ℚ
deriving DecidableEq, Repr

/-- JS `a || b` on the numeric fields involved in the unit-price fallback:
`0` is the only falsy value these fields take in the model. -/
def jsOrQ (a b : ℚ) : ℚ := if a = 0 then b else a

/-- Transcription of `getSubItemPrice` (line 707):
`subItems.find(s => s.id === subItemId)?.unit_price || 0`.  A missing sub
item yields `undefined || 0 = 0`; a found price of 0 also yields 0, which
coincides with `getD 0`. -/
def getSubItemPrice (subItems : List SubItemRec) (subItemId : String) : ℚ :=
  ((subItems.find? (fun s => s.id = subItemId)).map (·.unit_price)).getD 0

structure IssueItemRow where
  issue_id : String
  sub_item_id : String
  quantity : ℚ
  unit_price : ℚ
deriving DecidableEq, Repr

structure IssuePhotoRow where
  issue_id : String
  photo_url : String
deriving DecidableEq, Repr

structure IssueRow where
  id : String
  report_id : String
  main_item_id : String
  notes : String
  issue_type : String
deriving DecidableEq, Repr

/-- The three relational tables the issue-save sequence touches. -/
structure Store where
  report_issues : List IssueRow
  issue_items : List IssueItemRow
  issue_photos : List IssuePhotoRow
deriving DecidableEq, Repr

/-- The `issue_items` rows `handleSaveIssue` inserts for the draft
(lines 595–604 for case1, 613–620 for case2), with the
`unit_price || getSubItemPrice(...)` fallback. -/
def draftItemRows (subItems : List SubItemRec) (issueId : String)
    (ci : IssueFormData) : List IssueItemRow :=
  match ci.caseType with
  | .case1 =>
    [ { issue_id := issueId
        sub_item_id := ci.case1Data.sub_item_id
        quantity := ci.case1Data.quantity
        unit_price := jsOrQ ci.case1Data.unit_price
          (getSubItemPrice subItems ci.case1Data.sub_item_id) } ]
  | .case2 =>
    ci.case2Data.items.map fun it =>
      { issue_id := issueId
        sub_item_id := it.sub_item_id
        quantity := it.quantity
        unit_price := jsOrQ it.unit_price (getSubItemPrice subItems it.sub_item_id) }

/-- The `issue_photos` rows `handleSaveIssue` inserts for the draft
(lines 606–611 for case1, 622–627 for case2): one row per
`case1Data.photos` entry, or one per `case2Data.items` entry. -/
def draftPhotoRows (issueId : String) (ci : IssueFormData) : List IssuePhotoRow :=
  match ci.caseType with
  | .case1 => ci.case1Data.photos.map fun u => { issue_id := issueId, photo_url := u }
  | .case2 => ci.case2Data.items.map fun it => { issue_id := issueId, photo_url := it.photo }

/-- The edit path of `handleSaveIssue` (lines 581–628): update the issue
row (`notes || ""` is the identity in the model since `""` is the only
falsy value), then delete **all** `issue_items` and `issue_photos` rows
carrying the issue id, then insert the draft's rows. -/
def editSaveIssue (subItems : List SubItemRec) (store : Store)
    (editingIssueId reportId : String) (ci : IssueFormData) : Store :=
  let issues := store.report_issues.map fun r =>
    if r.id = editingIssueId then
      { r with
          main_item_id := ci.main_item_id
          notes := ci.notes
          issue_type := if ci.caseType = .case1 then "single" else "multiple"
          report_id := reportId }
    else r
  let keptItems := store.issue_items.filter fun r => r.issue_id ≠ editingIssueId
  let keptPhotos := store.issue_photos.filter fun r => r.issue_id ≠ editingIssueId
  { report_issues := issues
    issue_items := keptItems ++ draftItemRows subItems editingIssueId ci
    issue_photos := keptPhotos ++ draftPhotoRows editingIssueId ci }

/-! ## Report delete (`handleDeleteReport`, lines 678–705) -/

/-- One store mutation issued by `handleDeleteReport`. -/
inductive DeleteOp where
  | delItemsByIssueIds (ids : List String)
  | delPhotosByIssueIds (ids : List String)
  | delIssuesByIds (ids : List String)
  | delReport (id : String)
deriving DecidableEq, Repr

/-- The mutation sequence of `handleDeleteReport`: the three batch deletes
are issued (in this order, each awaited before the next) only when the
report has issues; the report-row delete always follows. -/
def deleteReportOps (issueIds : List String) (reportId : String) : List DeleteOp :=
  (if 0 < issueIds.length then
    [ DeleteOp.delItemsByIssueIds issueIds
    , DeleteOp.delPhotosByIssueIds issueIds
    , DeleteOp.delIssuesByIds issueIds ]
   else []) ++ [DeleteOp.delReport reportId]

/-- An op deleting child rows (issue_items or issue_photos). -/
def DeleteOp.isChildDelete : DeleteOp → Bool
  | .delItemsByIssueIds _ => true
  | .delPhotosByIssueIds _ => true
  | _ => false

def DeleteOp.isItemsDelete : DeleteOp → Bool
  | .delItemsByIssueIds _ => true
  | _ => false

def DeleteOp.isPhotosDelete : DeleteOp → Bool
  | .delPhotosByIssueIds _ => true
  | _ => false

def DeleteOp.isIssuesDelete : DeleteOp → Bool
  | .delIssuesByIds _ => true
  | _ => false

def DeleteOp.isReportDelete : DeleteOp → Bool
  | .delReport _ => true
  | _ => false

/-! ## Map-photo API route (`src/pages/api/map-photo.ts`) -/

/-- A JSON body value as far as the handler's type tests distinguish
them: a (non-NaN) number, `NaN`, a string, or anything else (undefined,
null, booleans, objects — all of which behave identically here: not a
number and not a string). -/
inductive JSVal where
  | num (q : ℚ)
  | nan
  | str (s : String)
  | undef
deriving DecidableEq, Repr

/-- Coercion `typeof v === "string" ? parseFloat(v) : v` (lines 25–26); `pf` is
`parseFloat`, with `none` for `NaN`. -/
def toNum (pf : String → Option ℚ) : JSVal → JSVal
  | .str s =>
    match pf s with
    | some q => .num q
    | none => .nan
  | v => v

/-- Test `typeof v === "number"` (`NaN` is a number). -/
def isJSNumber : JSVal → Bool
  | .num _ => true
  | .nan => true
  | _ => false

/-- Test `Number.isNaN v`. -/
def isJSNaN : JSVal → Bool
  | .nan => true
  | _ => false

/-- JS truthiness of an optional string field (absent or empty = falsy). -/
def strTruthy : Option String → Bool
  | some s => s ≠ ""
  | none => false

/-- JS `a || b` on optional strings: yields `b` (truthy or not) when `a`
is falsy. -/
def jsOrOptStr (a b : Option String) : Option String :=
  if strTruthy a then a else b

/-- Sanitization `resolvedType.replace(/[^a-zA-Z0-9_-]/g, "")` (line 59). -/
def sanitizeType (s : String) : String :=
  ⟨s.data.filter fun ch => ch.isAlphanum || ch = '_' || ch = '-'⟩

structure MapPhotoRequest where
  method : String
  lat : JSVal
  lng : JSVal
  reportId : Option String
  targetId : Option String
  targetType : Option String

/-- Outcome of `fetch(mapUrl)`: a thrown network error, or a response
with `ok` reflecting a 2xx status. -/
inductive FetchOutcome where
  | throws
  | resp (ok : Bool)
deriving DecidableEq, Repr

/-- Server environment of the handler: the resolved API key
(`mapPhotoConfig.gmapsKey || process.env.GMAPS_KEY`; `""` when neither is
set), `parseFloat`, the provider fetch outcome, the storage upload error
(if any) and `getPublicUrl`. -/
structure MapPhotoEnv where
  apiKey : String
  parseFloat : String → Option ℚ
  fetchMap : FetchOutcome
  uploadError : Option String
  publicUrl : String → String

structure MapPhotoResponse where
  status : ℕ
  url : Option String
  path : Option String
  error : Option String
deriving DecidableEq, Repr

/-- The request handler of `src/pages/api/map-photo.ts`, transcribed
branch by branch.  The interpolated parts of error messages (Google's
status text in the 502 body, the caught error's message in the 500 body)
are abstracted to fixed strings; the claims concern only status codes and
the presence of `url`/`path`/`error`. -/
def mapPhotoHandler (env : MapPhotoEnv) (req : MapPhotoRequest) : MapPhotoResponse :=
  if req.method ≠ "POST" then
    { status := 405, url := none, path := none, error := some "Method not allowed" }
  else if env.apiKey = "" then
    { status := 500, url := none, path := none,
      error := some "GMAPS_KEY is missing in environment variables" }
  else
    let latNum := toNum env.parseFloat req.lat
    let lngNum := toNum env.parseFloat req.lng
    let resolvedId := jsOrOptStr req.targetId req.reportId
    let resolvedType :=
      match req.targetType with
      | some s =>
        if 0 < s.length then s
        else if strTruthy req.reportId then "report" else "mosque"
      | none => if strTruthy req.reportId then "report" else "mosque"
    if isJSNumber latNum = false ∨ isJSNumber lngNum = false
        ∨ strTruthy resolvedId = false
        ∨ isJSNaN latNum = true ∨ isJSNaN lngNum = true then
      { status := 400, url := none, path := none,
        error := some "lat, lng (number) and targetId are required" }
    else
      match env.fetchMap with
      | .throws =>
        { status := 500, url := none, path := none,
          error := some "Unexpected server error" }
      | .resp ok =>
        if ok = false then
          { status := 502, url := none, path := none,
            error := some "Failed to fetch static map from Google" }
        else
          let safeType :=
            if sanitizeType resolvedType = "" then "map" else sanitizeType resolvedType
          let path := "map-photos/" ++ safeType ++ "-" ++ resolvedId.getD "" ++ ".jpg"
          match env.uploadError with
          | some msg =>
            { status := 500, url := none, path := none, error := some msg }
          | none =>
            { status := 200, url := some (env.publicUrl path), path := some path,
              error := none }

/-- A draft whose case1 slot 0 and case2 item 0 both hold the preview
reference `"p"`; used to witness the staleness-guard theorem. -/
def c5Draft : IssueFormData :=
  { caseType := .case1
    main_item_id := "m1"
    notes := ""
    case1Data := { sub_item_id := "s1", quantity := 1, unit_price := 10, photos := ["p"] }
    case2Data := { items := [{ sub_item_id := "s2", quantity := 1, unit_price := 20, photo := "p" }] } }

end Inspection

/-! # Theorems -/

namespace Inspection

/-- C1: for a `case1` draft, `validateIssue` accepts exactly when the main
item is set, the sub item is set, exactly 3 of the photo slots are
non-empty, the quantity is positive and the unit price is positive. -/
theorem validateIssue_case1_iff (ci : IssueFormData) (hc : ci.caseType = .case1) :
    validateIssue ci = true ↔
      ci.main_item_id ≠ "" ∧ ci.case1Data.sub_item_id ≠ "" ∧
      (ci.case1Data.photos.filter (fun p => p ≠ "")).length = 3 ∧
      0 < ci.case1Data.quantity ∧ 0 < ci.case1Data.unit_price := by
  unfold validateIssue
  rw [hc]
  by_cases h1 : ci.main_item_id = "" <;>
    by_cases h2 : ci.case1Data.sub_item_id = "" <;>
      by_cases h3 : (ci.case1Data.photos.filter (fun p => p ≠ "")).length = 3 <;>
        by_cases h4 : ci.case1Data.quantity ≤ 0 <;>
          by_cases h5 : ci.case1Data.unit_price ≤ 0 <;>
            simp_all

/-- Witness for C1: the spec's own example draft
`{main_item_id:"m1", sub_item_id:"s1", quantity:2, unit_price:50,
photos:["u1","u2","u3"]}` is accepted. -/
theorem validateIssue_case1_iff_witness :
    validateIssue
      { caseType := .case1, main_item_id := "m1", notes := ""
        case1Data := { sub_item_id := "s1", quantity := 2, unit_price := 50,
                       photos := ["u1", "u2", "u3"] }
        case2Data := { items := [] } } = true := by
  rw [validateIssue_case1_iff _ rfl]
  refine ⟨by decide, by decide, by decide, by norm_num, by norm_num⟩

/-- C2 counterexample: a `case2` draft with exactly 3 valid item entries is
rejected by `validateIssue` when its `main_item_id` is empty, so
"`validateIssue` returns true iff exactly 3 entries are valid" is false as
stated. -/
theorem validateIssue_case2_claim_false :
    c2Counterexample.caseType = .case2 ∧
    (c2Counterexample.case2Data.items.filter case2ItemValid).length = 3 ∧
    validateIssue c2Counterexample = false := by
  refine ⟨rfl, ?_, ?_⟩ <;> decide

/-- C2 (amended): for a `case2` draft, `validateIssue` accepts exactly when
the main item is set AND exactly 3 of the `case2Data.items` entries each
have non-empty `sub_item_id`, non-empty `photo`, positive quantity and
positive unit price — regardless of how many entries the array contains. -/
theorem validateIssue_case2_iff (ci : IssueFormData) (hc : ci.caseType = .case2) :
    validateIssue ci = true ↔
      ci.main_item_id ≠ "" ∧
      (ci.case2Data.items.filter case2ItemValid).length = 3 := by
  unfold validateIssue
  rw [hc]
  by_cases h1 : ci.main_item_id = "" <;>
    by_cases h2 : (ci.case2Data.items.filter case2ItemValid).length = 3 <;>
      simp_all

/-- Witness for C2 (amended): the spec's example shape — 4 entries of which
only 3 satisfy all four per-item conditions — is accepted once the main
item is set. -/
theorem validateIssue_case2_iff_witness :
    validateIssue
      { caseType := .case2, main_item_id := "m1", notes := ""
        case1Data := { sub_item_id := "", quantity := 1, unit_price := 0, photos := [] }
        case2Data :=
          { items :=
              [ { sub_item_id := "s1", quantity := 1, unit_price := 10, photo := "p1" }
              , { sub_item_id := "s2", quantity := 2, unit_price := 20, photo := "p2" }
              , { sub_item_id := "s3", quantity := 3, unit_price := 30, photo := "p3" }
              , { sub_item_id := "", quantity := 1, unit_price := 0, photo := "" } ] } }
      = true := by
  rw [validateIssue_case2_iff _ rfl]
  exact ⟨by decide, by decide⟩

/-- C3: whenever `file.size ≤ targetSizeKb * 1024`, `compressImage` returns
the input file itself unchanged, in every environment and for every
decoder/encoder behaviour (the SSR guard also returns the file unchanged,
so no environment violates this). -/
theorem compressImage_small_file_identity
    (hasWindow : Bool) (decode : Option ImageDims) (ctxOk : Bool)
    (encode : ℚ → Option ℕ) (now : ℕ) (file : JSFile)
    (maxDimension : ℚ) (targetSizeKb : ℕ)
    (hsize : file.size ≤ targetSizeKb * 1024) :
    compressImage hasWindow decode ctxOk encode now file maxDimension targetSizeKb
      = .ok file := by
  unfold compressImage
  by_cases hw : hasWindow <;> simp [hw, hsize]

/-- Witness for C3: a 100,000-byte file is below the default 921,600-byte
target and is returned unchanged. -/
theorem compressImage_small_file_identity_witness :
    compressImage true (some ⟨4000, 3000⟩) true (fun _ => some 500000) 7
      ⟨100000, "a.jpg", "image/jpeg"⟩ 1400 900
      = .ok ⟨100000, "a.jpg", "image/jpeg"⟩ :=
  compressImage_small_file_identity true (some ⟨4000, 3000⟩) true
    (fun _ => some 500000) 7 ⟨100000, "a.jpg", "image/jpeg"⟩ 1400 900 (by norm_num)

/-- Unfolding lemma: the loop exits (via its own condition) whenever the
blob fits or the quality is at or below the 0.58 floor. -/
theorem compressLoopAux_stop (encode : ℚ → Option ℕ) (targetBytes fuel : ℕ)
    (q : ℚ) (blob : ℕ) (qs : List ℚ)
    (h : ¬ (targetBytes < blob ∧ (58 : ℚ)/100 < q)) :
    compressLoopAux encode targetBytes fuel q blob qs = .done q blob qs := by
  unfold compressLoopAux
  rw [if_neg h]

/-- Unfolding lemma: one iteration of the loop when its condition holds. -/
theorem compressLoopAux_go (encode : ℚ → Option ℕ) (targetBytes fuel : ℕ)
    (q : ℚ) (blob : ℕ) (qs : List ℚ)
    (h : targetBytes < blob ∧ (58 : ℚ)/100 < q) :
    compressLoopAux encode targetBytes (fuel + 1) q blob qs =
      match encode (q - 8/100) with
      | none => .encodeFailed
      | some b2 =>
          compressLoopAux encode targetBytes fuel (q - 8/100) b2 (qs ++ [q - 8/100]) := by
  conv_lhs => unfold compressLoopAux
  rw [if_pos h]

/-- C4 counterexample: with an encoder whose blobs never fit the default
921,600-byte target, the loop of `compressImage` runs exactly 2 iterations
and the second one *does* encode at quality 0.56 (= 14/25): the encoded
list is [0.64, 0.56], refuting "an encode at quality 0.56 never runs".
The loop condition checks the quality *before* decrementing, so 0.64 >
0.58 admits a second iteration that encodes at 0.56. -/
theorem compressLoop_encodes_at_056 :
    compressLoopAux c4Encode (900 * 1024) compressFuel (72/100) 1000000 []
      = .done (14/25) 1000000 [16/25, 14/25] ∧ (14 : ℚ)/25 = 56/100 := by
  refine ⟨?_, by norm_num⟩
  have h1 : 900 * 1024 < 1000000 ∧ (58 : ℚ)/100 < 72/100 := ⟨by norm_num, by norm_num⟩
  have e1 : (72 : ℚ)/100 - 8/100 = 16/25 := by norm_num
  rw [show compressFuel = 15 + 1 from rfl, compressLoopAux_go _ _ _ _ _ _ h1, e1]
  simp only [c4Encode]
  have h2 : 900 * 1024 < 1000000 ∧ (58 : ℚ)/100 < 16/25 := ⟨by norm_num, by norm_num⟩
  have e2 : (16 : ℚ)/25 - 8/100 = 14/25 := by norm_num
  rw [show (15 : ℕ) = 14 + 1 from rfl, compressLoopAux_go _ _ _ _ _ _ h2, e2]
  simp only [c4Encode]
  rw [compressLoopAux_stop _ _ _ _ _ _ (by rintro ⟨-, hq⟩; norm_num at hq)]
  simp

/-- C4 (amended): from its actual entry state (quality 0.72), the
quality-reduction loop of `compressImage` performs at most 2 iterations
for any encoder, target and fuel ≥ 2 — the fuel never runs out, and the
qualities encoded inside the loop form a prefix of [0.64, 0.56]: the first
re-encode is at 0.64 and the second (run only when the 0.64 encode still
exceeds the target) at 0.56, after which the loop stops because
0.56 > 0.58 fails.  In particular no encode at 0.48 or below ever runs. -/
theorem compressLoop_at_most_two_iterations (encode : ℚ → Option ℕ)
    (targetBytes b0 fuel : ℕ) (hfuel : 2 ≤ fuel) :
    compressLoopAux encode targetBytes fuel (72/100) b0 [] ≠ .outOfFuel ∧
    ∀ q blob qs,
      compressLoopAux encode targetBytes fuel (72/100) b0 [] = .done q blob qs →
        qs.length ≤ 2 ∧ qs <+: [16/25, 14/25] := by
  obtain ⟨n, rfl⟩ : ∃ n, fuel = n + 2 := ⟨fuel - 2, by omega⟩
  by_cases hb0 : targetBytes < b0
  · have h1 : targetBytes < b0 ∧ (58 : ℚ)/100 < 72/100 := ⟨hb0, by norm_num⟩
    have e1 : (72 : ℚ)/100 - 8/100 = 16/25 := by norm_num
    rw [show n + 2 = (n + 1) + 1 from rfl, compressLoopAux_go _ _ _ _ _ _ h1, e1]
    cases he1 : encode (16/25) with
    | none => simp
    | some b1 =>
      dsimp only
      by_cases hb1 : targetBytes < b1
      · have h2 : targetBytes < b1 ∧ (58 : ℚ)/100 < 16/25 := ⟨hb1, by norm_num⟩
        have e2 : (16 : ℚ)/25 - 8/100 = 14/25 := by norm_num
        rw [compressLoopAux_go _ _ _ _ _ _ h2, e2]
        cases he2 : encode (14/25) with
        | none => simp
        | some b2 =>
          dsimp only
          rw [compressLoopAux_stop]
          · refine ⟨by simp, ?_⟩
            intro q blob qs hdone
            injection hdone with hq hblob hqs
            subst hqs
            refine ⟨by simp, ?_⟩
            simp only [List.nil_append]
            exact List.prefix_rfl
          · rintro ⟨-, hq⟩
            norm_num at hq
      · rw [compressLoopAux_stop _ _ _ _ _ _ (fun hc => hb1 hc.1)]
        refine ⟨by simp, ?_⟩
        intro q blob qs hdone
        injection hdone with hq hblob hqs
        subst hqs
        refine ⟨by simp, ?_⟩
        exact ⟨[14/25], by simp⟩
  · rw [compressLoopAux_stop _ _ _ _ _ _ (fun hc => hb0 hc.1)]
    refine ⟨by simp, ?_⟩
    intro q blob qs hdone
    injection hdone with hq hblob hqs
    subst hqs
    exact ⟨by simp, List.nil_prefix⟩

/-- Witness for C4 (amended): applying the bound at the counterexample
encoder with fuel `compressFuel` shows the trace there has length ≤ 2. -/
theorem compressLoop_at_most_two_iterations_witness :
    compressLoopAux c4Encode (900 * 1024) compressFuel (72/100) 1000000 []
      ≠ .outOfFuel := by
  exact (compressLoop_at_most_two_iterations c4Encode (900 * 1024) 1000000
    compressFuel (by decide)).1

/-- C5: each photo-slot upload update installs the remote URL (on
success) or clears the slot (on failure) exactly when the slot still
holds the temporary preview reference created at upload start, and in
every other case — the user cleared or replaced the slot mid-upload, or
the slot no longer exists — the draft is left unchanged.  Holds for both
the case1 and the case2 handlers.  The hypothesis `previewUrl ≠ ""`
records that `URL.createObjectURL` never returns an empty string, which
is what makes the `String` model of the guard faithful. -/
theorem photoUpload_staleness_guard (prev : IssueFormData) (i : ℕ)
    (previewUrl photoUrl : String) (hpre : previewUrl ≠ "") :
    ((jsGetStr prev.case1Data.photos i = previewUrl →
        case1ResolveUpdate i previewUrl photoUrl prev = case1PhotoSet i photoUrl prev ∧
        case1FailUpdate i previewUrl prev = case1PhotoSet i "" prev) ∧
     (jsGetStr prev.case1Data.photos i ≠ previewUrl →
        case1ResolveUpdate i previewUrl photoUrl prev = prev ∧
        case1FailUpdate i previewUrl prev = prev)) ∧
    ((∀ it, prev.case2Data.items[i]? = some it → it.photo = previewUrl →
        case2ResolveUpdate i previewUrl photoUrl prev =
          { prev with case2Data :=
              ⟨prev.case2Data.items.set i { it with photo := photoUrl }⟩ } ∧
        case2FailUpdate i previewUrl prev =
          { prev with case2Data :=
              ⟨prev.case2Data.items.set i { it with photo := "" }⟩ }) ∧
     ((prev.case2Data.items[i]?).map Case2Item.photo ≠ some previewUrl →
        case2ResolveUpdate i previewUrl photoUrl prev = prev ∧
        case2FailUpdate i previewUrl prev = prev)) := by
  refine ⟨⟨?_, ?_⟩, ?_, ?_⟩
  · intro hslot
    unfold case1ResolveUpdate case1FailUpdate
    simp [hslot]
  · intro hslot
    unfold case1ResolveUpdate case1FailUpdate
    simp [hslot]
  · intro it hit hphoto
    simp [case2ResolveUpdate, case2FailUpdate, hit, hphoto]
  · intro hguard
    cases hit : prev.case2Data.items[i]? with
    | none => simp [case2ResolveUpdate, case2FailUpdate, hit]
    | some it =>
      rw [hit] at hguard
      have hne : it.photo ≠ previewUrl := by
        intro he
        exact hguard (by simp [he])
      simp [case2ResolveUpdate, case2FailUpdate, hit, hne]

/-- Witness for C5: on `c5Draft`, whose slot 0 still holds the preview
`"p"`, the resolve updates install the remote URL `"u"` in both variants. -/
theorem photoUpload_staleness_guard_witness :
    case1ResolveUpdate 0 "p" "u" c5Draft = case1PhotoSet 0 "u" c5Draft ∧
    case2ResolveUpdate 0 "p" "u" c5Draft =
      { c5Draft with case2Data :=
          ⟨c5Draft.case2Data.items.set 0
            { sub_item_id := "s2", quantity := 1, unit_price := 20, photo := "u" }⟩ } := by
  have h := photoUpload_staleness_guard c5Draft 0 "p" "u" (by decide)
  refine ⟨(h.1.1 (by decide)).1, ?_⟩
  have h2 := (h.2.1 { sub_item_id := "s2", quantity := 1, unit_price := 20, photo := "p" }
    (by decide) rfl).1
  exact h2

/-- Helper: setting index `i` (which holds `a`) to `b` shifts `countP` by
the indicator difference of `p b` and `p a`. -/
theorem countP_set_of_get? (p : UploadPhase → Bool) (a b : UploadPhase) :
    ∀ (l : List UploadPhase) (i : ℕ), l.get? i = some a →
      (l.set i b).countP p + (if p a then 1 else 0)
        = l.countP p + (if p b then 1 else 0)
  | [], i, h => by simp at h
  | x :: xs, 0, h => by
    simp only [List.get?] at h
    injection h with h
    subst h
    simp only [List.set, List.countP_cons]
    omega
  | x :: xs, i + 1, h => by
    simp only [List.get?] at h
    have ih := countP_set_of_get? p a b xs i h
    simp only [List.set, List.countP_cons]
    omega

/-- Invariant: in every reachable page state the pending-uploads counter
equals its initial value plus the number of uploads currently in flight.
In particular the `Math.max(0, …)` clamp in the `finally` block never
actually clamps: at every settle the counter is at least 1. -/
theorem uploadCounter_invariant (c₀ : ℤ) (hc₀ : 0 ≤ c₀) (n : ℕ) (s : UploadState)
    (h : UploadReachable (uploadInit c₀ n) s) :
    s.counter = c₀ + s.handlers.countP (· == .inFlight) := by
  induction h with
  | refl =>
    simp only [uploadInit]
    have : (List.replicate n UploadPhase.idle).countP (· == .inFlight) = 0 := by
      induction n with
      | zero => simp
      | succ m ih => simp [List.replicate, List.countP_cons, ih]
    simp [this]
  | tail hsteps hstep ih =>
    rename_i t _
    cases hstep with
    | start i hi =>
      have hcount := countP_set_of_get? (· == .inFlight) .idle .inFlight t.handlers i hi
      simp only [counterStep]
      simp only [show (UploadPhase.idle == UploadPhase.inFlight) = false from rfl,
        show (UploadPhase.inFlight == UploadPhase.inFlight) = true from rfl] at hcount
      simp at hcount
      omega
    | settle i hi =>
      have hcount := countP_set_of_get? (· == .inFlight) .inFlight .settled t.handlers i hi
      have hmem : UploadPhase.inFlight ∈ t.handlers := List.get?_mem hi
      have hpos : 0 < t.handlers.countP (· == .inFlight) :=
        List.countP_pos_iff.mpr ⟨_, hmem, by simp⟩
      simp only [counterStep]
      simp only [show (UploadPhase.inFlight == UploadPhase.inFlight) = true from rfl,
        show (UploadPhase.settled == UploadPhase.inFlight) = false from rfl] at hcount
      simp at hcount
      have hge : 1 ≤ t.counter := by omega
      have hmax : max 0 (t.counter - 1) = t.counter - 1 := by omega
      omega

/-- C6: every upload increments the counter once before starting and
decrements it exactly once when it settles (success and failure alike),
so in any reachable state where every upload has settled the counter has
returned to its initial value. -/
theorem pendingUploads_balanced (c₀ : ℤ) (hc₀ : 0 ≤ c₀) (n : ℕ) (s : UploadState)
    (h : UploadReachable (uploadInit c₀ n) s)
    (hall : ∀ p ∈ s.handlers, p = .settled) :
    s.counter = c₀ := by
  have hinv := uploadCounter_invariant c₀ hc₀ n s h
  have hzero : s.handlers.countP (· == .inFlight) = 0 := by
    rw [List.countP_eq_zero]
    intro p hp
    rw [hall p hp]
    decide
  omega

/-- Witness for C6: one upload started and settled returns the counter to
its initial value 0. -/
theorem pendingUploads_balanced_witness :
    (⟨0, [UploadPhase.settled]⟩ : UploadState).counter = 0 := by
  have h1 : UploadStep (uploadInit 0 1) ⟨1, [.inFlight]⟩ := by
    have := UploadStep.start (uploadInit 0 1) 0 (by rfl)
    simpa [uploadInit, counterStep] using this
  have h2 : UploadStep ⟨1, [.inFlight]⟩ ⟨0, [.settled]⟩ := by
    have := UploadStep.settle (⟨1, [.inFlight]⟩ : UploadState) 0 (by rfl)
    simpa [counterStep] using this
  have hreach : UploadReachable (uploadInit 0 1) ⟨0, [.settled]⟩ :=
    Relation.ReflTransGen.tail (Relation.ReflTransGen.single h1) h2
  exact pendingUploads_balanced 0 le_rfl 1 _ hreach
    (by intro p hp; simpa using hp)

/-- C10: the pending-uploads counter starts at 0 and every decrement is
clamped with `Math.max(0, count - 1)`, so no sequence of increments and
decrements — matched or not — can drive it below zero. -/
theorem pendingUploads_nonneg (c₀ : ℤ) (hc₀ : 0 ≤ c₀) (es : List CounterEvent) :
    0 ≤ runCounter c₀ es := by
  induction es generalizing c₀ with
  | nil => simpa [runCounter] using hc₀
  | cons e es ih =>
    have hstep : 0 ≤ counterStep c₀ e := by
      cases e with
      | inc => simp only [counterStep]; omega
      | dec => exact le_max_left _ _
    simpa [runCounter, List.foldl] using ih (counterStep c₀ e) hstep

/-- Witness for C10: an unmatched decrement from 0 leaves the counter at a
non-negative value. -/
theorem pendingUploads_nonneg_witness :
    0 ≤ runCounter 0 [.dec, .dec, .inc, .dec, .dec] :=
  pendingUploads_nonneg 0 le_rfl [.dec, .dec, .inc, .dec, .dec]

/-- Helper: filtering for an id after having filtered it away yields
nothing. -/
theorem filter_ne_filter_eq {α : Type} (g : α → String) (x : String) (l : List α) :
    ((l.filter (fun r => g r ≠ x)).filter (fun r => g r = x)) = [] := by
  induction l with
  | nil => rfl
  | cons a l ih => by_cases h : g a = x <;> simp [h, ih]

/-- Helper: a validated case1 draft has exactly 3 non-empty photo slots. -/
theorem validateIssue_case1_photos (ci : IssueFormData) (hc : ci.caseType = .case1)
    (hval : validateIssue ci = true) :
    (ci.case1Data.photos.filter (fun p => p ≠ "")).length = 3 := by
  unfold validateIssue at hval
  rw [hc] at hval
  simp at hval
  simpa using hval.2.2.1

/-- Helper: every row built for the draft carries the edited issue's id. -/
theorem draftItemRows_issue_id (subItems : List SubItemRec) (eid : String)
    (ci : IssueFormData) :
    ∀ r ∈ draftItemRows subItems eid ci, r.issue_id = eid := by
  intro r hr
  unfold draftItemRows at hr
  cases hcase : ci.caseType <;> rw [hcase] at hr
  · simp at hr
    subst hr
    rfl
  · obtain ⟨it, -, rfl⟩ := List.mem_map.mp hr
    rfl

/-- Helper: every photo row built for the draft carries the issue's id. -/
theorem draftPhotoRows_issue_id (eid : String) (ci : IssueFormData) :
    ∀ r ∈ draftPhotoRows eid ci, r.issue_id = eid := by
  intro r hr
  unfold draftPhotoRows at hr
  cases hcase : ci.caseType <;> rw [hcase] at hr <;>
    · obtain ⟨u, -, rfl⟩ := List.mem_map.mp hr
      rfl

/-- C7: after the edit path of `handleSaveIssue`, the rows carrying the
edited issue's id are exactly the draft's freshly inserted rows — nothing
survives from the prior save — and their counts match the active
variant's fixed cardinality: 1 item + 3 photos for case1, 3 items + 3
photos for case2.  The two hypotheses below are invariants of every draft
the form can construct: case1 photo slots only exist at indices 0–2
(`[0, 1, 2].map` in the dialog and in `openEditIssueDialog`), and the
case2 items array always has exactly 3 entries (initial state,
`resetIssueForm` and `openEditIssueDialog` all build 3). -/
theorem editSaveIssue_child_cardinality (subItems : List SubItemRec) (store : Store)
    (eid rid : String) (ci : IssueFormData)
    (hval : validateIssue ci = true)
    (hp : ci.case1Data.photos.length ≤ 3)
    (hi : ci.case2Data.items.length = 3) :
    ((editSaveIssue subItems store eid rid ci).issue_items.filter
        (fun r => r.issue_id = eid)) = draftItemRows subItems eid ci ∧
    ((editSaveIssue subItems store eid rid ci).issue_photos.filter
        (fun r => r.issue_id = eid)) = draftPhotoRows eid ci ∧
    ((editSaveIssue subItems store eid rid ci).issue_items.filter
        (fun r => r.issue_id = eid)).length
      = (if ci.caseType = .case1 then 1 else 3) ∧
    ((editSaveIssue subItems store eid rid ci).issue_photos.filter
        (fun r => r.issue_id = eid)).length = 3 := by
  have hitems : ((editSaveIssue subItems store eid rid ci).issue_items.filter
      (fun r => r.issue_id = eid)) = draftItemRows subItems eid ci := by
    unfold editSaveIssue
    simp only [List.filter_append]
    rw [filter_ne_filter_eq IssueItemRow.issue_id eid, List.nil_append]
    exact List.filter_eq_self.mpr
      (fun r hr => by simpa using draftItemRows_issue_id subItems eid ci r hr)
  have hphotos : ((editSaveIssue subItems store eid rid ci).issue_photos.filter
      (fun r => r.issue_id = eid)) = draftPhotoRows eid ci := by
    unfold editSaveIssue
    simp only [List.filter_append]
    rw [filter_ne_filter_eq IssuePhotoRow.issue_id eid, List.nil_append]
    exact List.filter_eq_self.mpr
      (fun r hr => by simpa using draftPhotoRows_issue_id eid ci r hr)
  refine ⟨hitems, hphotos, ?_, ?_⟩
  · rw [hitems]
    unfold draftItemRows
    cases hcase : ci.caseType
    · simp
    · simp [hi]
  · rw [hphotos]
    unfold draftPhotoRows
    cases hcase : ci.caseType
    · have hflen := validateIssue_case1_photos ci hcase hval
      have hge : 3 ≤ ci.case1Data.photos.length :=
        hflen ▸ List.length_filter_le _ _
      simp [Nat.le_antisymm hp hge]
    · simp [hi]

/-- Witness for C7: editing issue `"i1"` of a store that still holds stale
rows for it leaves exactly 1 item and 3 photos carrying `"i1"`. -/
theorem editSaveIssue_child_cardinality_witness :
    ((editSaveIssue [⟨"s1", 5⟩]
        ⟨ [⟨"i1", "r1", "m0", "", "single"⟩]
        , [⟨"i1", "sOld", 9, 9⟩, ⟨"i1", "sOld2", 9, 9⟩, ⟨"i9", "sK", 1, 1⟩]
        , [⟨"i1", "old1"⟩, ⟨"i1", "old2"⟩] ⟩
        "i1" "r1"
        { caseType := .case1, main_item_id := "m1", notes := ""
          case1Data := { sub_item_id := "s1", quantity := 2, unit_price := 50,
                         photos := ["u1", "u2", "u3"] }
          case2Data := { items := [emptyCase2Item, emptyCase2Item, emptyCase2Item] } }
      ).issue_items.filter (fun r => r.issue_id = "i1")).length = 1 := by
  have h := editSaveIssue_child_cardinality [⟨"s1", 5⟩]
    ⟨ [⟨"i1", "r1", "m0", "", "single"⟩]
    , [⟨"i1", "sOld", 9, 9⟩, ⟨"i1", "sOld2", 9, 9⟩, ⟨"i9", "sK", 1, 1⟩]
    , [⟨"i1", "old1"⟩, ⟨"i1", "old2"⟩] ⟩
    "i1" "r1"
    { caseType := .case1, main_item_id := "m1", notes := ""
      case1Data := { sub_item_id := "s1", quantity := 2, unit_price := 50,
                     photos := ["u1", "u2", "u3"] }
      case2Data := { items := [emptyCase2Item, emptyCase2Item, emptyCase2Item] } }
    (by decide) (by decide) (by decide)
  simpa using h.2.2.1

/-- C8: in `handleDeleteReport` the report-row delete is always the last
mutation, and for any pair of issued mutations the child deletes
(issue_items, then issue_photos) precede the issues delete, which
precedes the report delete. -/
theorem deleteReport_ordering (issueIds : List String) (reportId : String) :
    (deleteReportOps issueIds reportId).getLast? = some (.delReport reportId) ∧
    ∀ (i j : ℕ) (opi opj : DeleteOp),
        (deleteReportOps issueIds reportId)[i]? = some opi →
        (deleteReportOps issueIds reportId)[j]? = some opj →
      (opi.isItemsDelete = true → opj.isPhotosDelete = true → i < j) ∧
      (opi.isChildDelete = true → opj.isIssuesDelete = true → i < j) ∧
      (opi.isIssuesDelete = true → opj.isReportDelete = true → i < j) ∧
      (opi.isChildDelete = true → opj.isReportDelete = true → i < j) := by
  by_cases h : 0 < issueIds.length
  · refine ⟨by simp [deleteReportOps, h], ?_⟩
    intro i j opi opj hi hj
    rcases i with _ | _ | _ | _ | i <;> rcases j with _ | _ | _ | _ | j <;>
      simp [deleteReportOps, h] at hi hj <;> subst_vars <;>
      simp [DeleteOp.isItemsDelete, DeleteOp.isPhotosDelete,
        DeleteOp.isChildDelete, DeleteOp.isIssuesDelete, DeleteOp.isReportDelete]
  · refine ⟨by simp [deleteReportOps, h], ?_⟩
    intro i j opi opj hi hj
    rcases i with _ | i <;> rcases j with _ | j <;>
      simp [deleteReportOps, h] at hi hj <;> subst_vars <;>
      simp [DeleteOp.isItemsDelete, DeleteOp.isPhotosDelete,
        DeleteOp.isChildDelete, DeleteOp.isIssuesDelete, DeleteOp.isReportDelete]

/-- Witness for C8: for a one-issue report the items delete (index 0)
precedes the report delete (index 3), and the report delete is last. -/
theorem deleteReport_ordering_witness :
    (deleteReportOps ["a"] "r").getLast? = some (.delReport "r") ∧ (0 : ℕ) < 3 := by
  have h := deleteReport_ordering ["a"] "r"
  refine ⟨h.1, ?_⟩
  exact ((h.2 0 3 (.delItemsByIssueIds ["a"]) (.delReport "r")
    (by decide) (by decide)).2.2.2) (by decide) (by decide)

/-- C9: the map-photo handler returns 405 for every non-POST request;
with an API key configured, it returns 400 exactly when the resolved
latitude or longitude is not a number or is NaN, or no identifier
resolves from `targetId || reportId`; and on a valid POST it returns 500
when the provider fetch throws, 502 when the provider responds non-2xx,
500 when the storage upload fails, and otherwise 200 carrying both `url`
and `path`. -/
theorem mapPhotoHandler_spec (env : MapPhotoEnv) (req : MapPhotoRequest) :
    (req.method ≠ "POST" → (mapPhotoHandler env req).status = 405) ∧
    (req.method = "POST" → env.apiKey ≠ "" →
      ((mapPhotoHandler env req).status = 400 ↔
        (isJSNumber (toNum env.parseFloat req.lat) = false ∨
         isJSNumber (toNum env.parseFloat req.lng) = false ∨
         strTruthy (jsOrOptStr req.targetId req.reportId) = false ∨
         isJSNaN (toNum env.parseFloat req.lat) = true ∨
         isJSNaN (toNum env.parseFloat req.lng) = true))) ∧
    (req.method = "POST" → env.apiKey ≠ "" →
      ¬ (isJSNumber (toNum env.parseFloat req.lat) = false ∨
         isJSNumber (toNum env.parseFloat req.lng) = false ∨
         strTruthy (jsOrOptStr req.targetId req.reportId) = false ∨
         isJSNaN (toNum env.parseFloat req.lat) = true ∨
         isJSNaN (toNum env.parseFloat req.lng) = true) →
      (env.fetchMap = .throws → (mapPhotoHandler env req).status = 500) ∧
      (env.fetchMap = .resp false → (mapPhotoHandler env req).status = 502) ∧
      (∀ msg, env.fetchMap = .resp true → env.uploadError = some msg →
        (mapPhotoHandler env req).status = 500) ∧
      (env.fetchMap = .resp true → env.uploadError = none →
        (mapPhotoHandler env req).status = 200 ∧
        (mapPhotoHandler env req).url.isSome = true ∧
        (mapPhotoHandler env req).path.isSome = true)) := by
  have hred : ∀ h1 : ¬ req.method ≠ "POST", ∀ h2 : ¬ env.apiKey = "",
      mapPhotoHandler env req =
        (if isJSNumber (toNum env.parseFloat req.lat) = false
            ∨ isJSNumber (toNum env.parseFloat req.lng) = false
            ∨ strTruthy (jsOrOptStr req.targetId req.reportId) = false
            ∨ isJSNaN (toNum env.parseFloat req.lat) = true
            ∨ isJSNaN (toNum env.parseFloat req.lng) = true then
          { status := 400, url := none, path := none,
            error := some "lat, lng (number) and targetId are required" }
        else
          match env.fetchMap with
          | .throws =>
            { status := 500, url := none, path := none,
              error := some "Unexpected server error" }
          | .resp ok =>
            if ok = false then
              { status := 502, url := none, path := none,
                error := some "Failed to fetch static map from Google" }
            else
              let resolvedId := jsOrOptStr req.targetId req.reportId
              let resolvedType :=
                match req.targetType with
                | some s =>
                  if 0 < s.length then s
                  else if strTruthy req.reportId then "report" else "mosque"
                | none => if strTruthy req.reportId then "report" else "mosque"
              let safeType :=
                if sanitizeType resolvedType = "" then "map" else sanitizeType resolvedType
              let path := "map-photos/" ++ safeType ++ "-" ++ resolvedId.getD "" ++ ".jpg"
              match env.uploadError with
              | some msg =>
                { status := 500, url := none, path := none, error := some msg }
              | none =>
                { status := 200, url := some (env.publicUrl path), path := some path,
                  error := none }) := by
    intro h1 h2
    unfold mapPhotoHandler
    rw [if_neg h1, if_neg h2]
  refine ⟨?_, ?_, ?_⟩
  · intro h
    simp [mapPhotoHandler, h]
  · intro hm hk
    rw [hred (by simp [hm]) hk]
    by_cases hbad : (isJSNumber (toNum env.parseFloat req.lat) = false ∨
        isJSNumber (toNum env.parseFloat req.lng) = false ∨
        strTruthy (jsOrOptStr req.targetId req.reportId) = false ∨
        isJSNaN (toNum env.parseFloat req.lat) = true ∨
        isJSNaN (toNum env.parseFloat req.lng) = true)
    · rw [if_pos hbad]
      exact iff_of_true rfl hbad
    · rw [if_neg hbad]
      refine iff_of_false ?_ hbad
      cases hf : env.fetchMap with
      | throws => simp
      | resp ok =>
        cases ok with
        | false => simp
        | true =>
          cases hu : env.uploadError with
          | none => simp
          | some msg => simp
  · intro hm hk hgood
    rw [hred (by simp [hm]) hk, if_neg hgood]
    refine ⟨?_, ?_, ?_, ?_⟩
    · intro hf
      rw [hf]
    · intro hf
      rw [hf]
      simp
    · intro msg hf hu
      rw [hf]
      simp [hu]
    · intro hf hu
      rw [hf]
      simp [hu]

/-- Witness for C9: a POST with numeric coordinates, a resolved report
identifier, a 2xx provider fetch and a clean upload gets a 200 with a
url and a path. -/
theorem mapPhotoHandler_spec_witness :
    (mapPhotoHandler
      ⟨"key", fun _ => none, .resp true, none, fun p => "https://cdn/" ++ p⟩
      ⟨"POST", .num 24, .num 46, some "r1", none, none⟩).status = 200 := by
  have h := mapPhotoHandler_spec
    ⟨"key", fun _ => none, .resp true, none, fun p => "https://cdn/" ++ p⟩
    ⟨"POST", .num 24, .num 46, some "r1", none, none⟩
  exact (h.2.2 rfl (by decide) (by decide) |>.2.2.2 rfl rfl).1


end Inspection
